import Mathlib

set_option autoImplicit false

/-!
Shallow embedding of dnsbrute's `lib/dns.py` (resolver bootstrap, wildcard
baseline cache, query pipeline, domain helpers) and proofs about it.

External collaborators are parameters:
* the public-suffix lookup (`PublicSuffixList.get_public_suffix`) is a
  function `psl : String → String`;
* the md5 hex digest (`hashlib.md5(...).hexdigest()`) is a function
  `md5hex : String → String`;
* the DNS resolver library (aiodns) and the network are a `DnsEnv` giving
  the outcome of each query; `none` models a raised exception (timeout,
  NXDOMAIN, network failure).
-/

namespace DnsBrute

/-- DNS record kinds used by the tool: the pycares constants QUERY_TYPE_NS,
QUERY_TYPE_A and QUERY_TYPE_CNAME. The `Record.__init__` ValueError for any
other query type is enforced here by the inductive itself. -/
inductive QueryType where
  | NS
  | A
  | CNAME
  deriving DecidableEq, Repr

/-- Embedding of the `Record` class: one DNS answer. `answer if answer else
[]` in the constructor is the identity on lists, so the field is kept as
given. -/
structure Record where
  domain : String
  type : QueryType
  ttl : Int
  answer : List String
  deriving DecidableEq, Repr

/-- Model of one pycares A-query answer object (ares_query_a_result): a host
string and a ttl. -/
structure AAnswer where
  host : String
  ttl : Int
  deriving DecidableEq, Repr

/-- Model of a pycares CNAME-query answer (ares_query_cname_result): the
canonical name and a ttl. -/
structure CnameAnswer where
  cname : String
  ttl : Int
  deriving DecidableEq, Repr

/-- Environment abstracting the aiodns resolver and the network: the outcome
of each query the program can issue, per hostname. `none` models a raised
exception; NS answers are the NS hostnames (`ns_record.host`). -/
structure DnsEnv where
  queryNS : String → Option (List String)
  queryA : String → Option (List AAnswer)
  queryCname : String → Option CnameAnswer

/-- Python truthiness of an int: 0 is falsy. Used for `if records.ttl`. -/
def intTruthy (n : Int) : Bool := n != 0

/-- Python `str.index` over characters: index of the first occurrence of the
character, or `none` for the ValueError raised when it is absent. -/
def charIndex : List Char → Char → Option Nat
  | [], _ => none
  | a :: as, c => if a == c then some 0 else (charIndex as c).map (fun i => i + 1)

/-- Python `s[n:]` slicing by characters. -/
def strDrop (s : String) (n : Nat) : String := String.mk (s.toList.drop n)

/-- Embedding of `_is_root_domain`: a domain is a root domain iff it equals
its own public suffix; `psl` stands for the external
`PublicSuffixList.get_public_suffix` collaborator. -/
def isRootDomain (psl : String → String) (domain : String) : Bool :=
  domain == psl domain

/-- Embedding of `_parent_domain`: a root domain is its own parent; any other
domain is stripped of everything through its first "."; `none` models the
ValueError that `domain.index(".")` raises when the domain has no dot. -/
def parentDomain (psl : String → String) (domain : String) : Option String :=
  if isRootDomain psl domain then some domain
  else
    match charIndex domain.toList '.' with
    | none => none
    | some i => some (strDrop domain (i + 1))

/-- Model of the `_black_list` dict: an association list where the newest
binding for a key shadows older ones. -/
abbrev BlackList := List (String × Record)

/-- Dict lookup: `_black_list[k]`, `none` for the KeyError case. -/
def blLookup (bl : BlackList) (k : String) : Option Record :=
  match bl.find? (fun p => p.fst == k) with
  | none => none
  | some p => some p.snd

/-- Dict assignment `_black_list[k] = v`. -/
def blInsert (bl : BlackList) (k : String) (v : Record) : BlackList :=
  (k, v) :: bl

/-- Python `==` between a pycares A-answer object and a str: neither type
defines cross-type equality, so the comparison always evaluates to False.
This is the comparison performed elementwise by the membership test
`record_ not in record.answer` in `_query_pan_dns`, whose `record.answer`
holds strings. -/
def aAnswerEqStr (_a : AAnswer) (_s : String) : Bool := false

/-- Python `record_ in record.answer` for an A-answer object against a list
of strings: any element equal under Python `==`. -/
def aAnswerInAnswers (a : AAnswer) (l : List String) : Bool :=
  l.any (fun s => aAnswerEqStr a s)

/-- Embedding of `_query_pan_dns` minus the final dict store: builds the
baseline Record for `domain` from the A answer and then the CNAME answer for
the synthetic hostname `md5hex(domain) ++ "." ++ domain` (the loop iterates
over ("A", "CNAME") in that order, with no break). A failed query is the
exception swallowed by the bare `except: pass`. -/
def queryPanDns (env : DnsEnv) (md5hex : String → String) (domain : String) : Record :=
  let subDomain := md5hex domain ++ "." ++ domain
  let record0 : Record := { domain := domain, type := QueryType.A, ttl := -1, answer := [] }
  let record1 :=
    match env.queryA subDomain with
    | none => record0
    | some [] => record0
    | some (r0 :: rs) =>
      let answer1 := (r0 :: rs).foldl
        (fun acc r => if !(aAnswerInAnswers r acc) then acc ++ [r.host] else acc)
        record0.answer
      { record0 with answer := answer1, ttl := r0.ttl }
  match env.queryCname subDomain with
  | none => record1
  | some res =>
    if !(record1.answer.contains res.cname) then
      { record1 with
        answer := record1.answer ++ [res.cname],
        ttl := if intTruthy res.ttl then res.ttl else record1.ttl }
    else record1

/-- Embedding of the baseline-population guard in `query_a_cname`
(`if parent_domain not in _black_list: _query_pan_dns(parent_domain)`)
together with the unconditional store `_black_list[domain] = record` that
ends `_query_pan_dns`. The Nat counts the DNS queries the call issues: a
population attempt always issues exactly one A and one CNAME query on the
synthetic hostname, even when both fail. -/
def ensureBaseline (env : DnsEnv) (md5hex : String → String) (bl : BlackList)
    (parent : String) : BlackList × Nat :=
  if (blLookup bl parent).isSome then (bl, 0)
  else (blInsert bl parent (queryPanDns env md5hex parent), 2)

/-- Embedding of `_is_pan_dns`: look up the baseline for the record's parent
domain and apply the wildcard rules; `none` models the ValueError of
`_parent_domain` or the KeyError of the dict lookup. -/
def isPanDns (psl : String → String) (bl : BlackList) (record : Record) : Option Bool :=
  match parentDomain psl record.domain with
  | none => none
  | some parent =>
    match blLookup bl parent with
    | none => none
    | some panDnsRecord =>
      if panDnsRecord.answer.isEmpty then some false
      else if record.type == QueryType.CNAME
          && record.answer.all (fun answer => panDnsRecord.answer.contains answer) then
        some true
      else if record.answer.all (fun answer => panDnsRecord.answer.contains answer)
          && record.ttl == panDnsRecord.ttl then
        some true
      else some false

/-- Embedding of the lookup loop of `query_a_cname` (the `for query_type in
("A", "CNAME")` loop): the A query runs first; a non-empty A answer builds
an A Record and `if record: break` stops before the CNAME iteration (a
Record object is always truthy); otherwise the CNAME query runs and, on
success, builds a CNAME Record. The second component lists the query kinds
issued for the domain, in order. -/
def queryACnameLoop (env : DnsEnv) (domain : String) : Option Record × List QueryType :=
  match env.queryA domain with
  | some (r0 :: rs) =>
    (some { domain := domain, type := QueryType.A, ttl := r0.ttl,
            answer := (r0 :: rs).map (fun r => r.host) }, [QueryType.A])
  | _ =>
    match env.queryCname domain with
    | some res =>
      (some { domain := domain, type := QueryType.CNAME,
              ttl := if intTruthy res.ttl then res.ttl else -1,
              answer := [res.cname] }, [QueryType.A, QueryType.CNAME])
    | none => (none, [QueryType.A, QueryType.CNAME])

/-- Embedding of `query_a_cname`: compute the parent domain, populate the
baseline if absent, run the A/CNAME loop, and suppress wildcard records.
The outer `none` models a propagated exception (the ValueError of
`_parent_domain` or a KeyError); otherwise the result carries the record
returned to the caller (if any), the updated black list, and the query kinds
issued for the domain itself. -/
def queryACname (psl md5hex : String → String) (env : DnsEnv) (bl : BlackList)
    (domain : String) : Option (Option Record × BlackList × List QueryType) :=
  match parentDomain psl domain with
  | none => none
  | some parent =>
    let bl1 := (ensureBaseline env md5hex bl parent).fst
    let step := queryACnameLoop env domain
    match step.fst with
    | none => some (none, bl1, step.snd)
    | some record =>
      match isPanDns psl bl1 record with
      | none => none
      | some true => some (none, bl1, step.snd)
      | some false => some (some record, bl1, step.snd)

/-- Outcome of `_query_ns`, which `query_loop` runs on a dedicated
`threading.Thread` and joins. No branch of `_query_ns` terminates the
process: `sysExitInThread` records the `exit(code)` call made after
`log.error` received the domain, the partial NS results and whether an
exception was caught — the SystemExit it raises unwinds only the worker
thread, where Python's threading machinery swallows it silently, so
`thread.join()` returns and the process continues with `_resolver` still
unassigned; `raised` is any other exception propagating out of the thread
uncaught (likewise leaving `_resolver` unassigned); `resolver` is the
nameserver set the constructed `aiodns.DNSResolver` is bound to. -/
inductive NsBootstrap where
  | sysExitInThread (code : Nat) (domain : String) (nsRecords : List String) (hadError : Bool)
  | raised
  | resolver (nameservers : List String)
  deriving DecidableEq, Repr

/-- Model of accumulating host strings into the Python set `ns_servers`
(insertion order; only membership matters to the claims). -/
def setAddAll (s : List String) (xs : List String) : List String :=
  xs.foldl (fun acc x => if acc.contains x then acc else acc ++ [x]) s

/-- Embedding of `_query_ns`: the NS lookup runs first, and an exception or
an empty answer logs `(domain, ns_records, exception)` and calls `exit(1)`
— a SystemExit that the worker thread running `_query_ns` swallows, so the
process keeps running without a resolver. Then `asyncio.gather` (with its
default `return_exceptions=False`) runs one A lookup per NS host: a single
failure propagates out of `run_until_complete`, is not caught anywhere in
`_query_ns`, and the thread dies before `_resolver` is assigned; only when
every A lookup succeeds is the resolver bound to the union of the resolved
hosts. -/
def queryNs (env : DnsEnv) (domain : String) : NsBootstrap :=
  match env.queryNS domain with
  | none => NsBootstrap.sysExitInThread 1 domain [] true
  | some nsRecords =>
    if nsRecords.isEmpty then NsBootstrap.sysExitInThread 1 domain nsRecords false
    else if nsRecords.any (fun h => (env.queryA h).isNone) then NsBootstrap.raised
    else
      let nsServers := nsRecords.foldl
        (fun acc h =>
          match env.queryA h with
          | none => acc
          | some aRecord => setAddAll acc (aRecord.map (fun a => a.host)))
        []
      NsBootstrap.resolver nsServers
/-! ## Concrete instances used by counterexamples and witnesses -/

/-- Public-suffix collaborator for the C1 scenario: every domain's
registrable root is "foo.com". -/
def pslC1 : String → String := fun _ => "foo.com"

/-- Hash collaborator for the C1 scenario. -/
def md5C1 : String → String := fun _ => "deadbeef"

/-- Network for the C1 scenario: "x.foo.com" has both a non-empty A answer
and a CNAME answer; the synthetic baseline hostname resolves to nothing. -/
def envC1 : DnsEnv :=
  { queryNS := fun _ => none,
    queryA := fun h =>
      if h == "x.foo.com" then some [{ host := "1.2.3.4", ttl := 300 }] else none,
    queryCname := fun h =>
      if h == "x.foo.com" then some { cname := "cn.target.com", ttl := 60 } else none }

/-- Network where every A query succeeds with a non-empty answer. -/
def envC1A : DnsEnv :=
  { queryNS := fun _ => none,
    queryA := fun _ => some [{ host := "1.2.3.4", ttl := 300 }],
    queryCname := fun _ => none }

/-- Network where every A query raises and every CNAME query succeeds. -/
def envC1B : DnsEnv :=
  { queryNS := fun _ => none,
    queryA := fun _ => none,
    queryCname := fun _ => some { cname := "cn.target.com", ttl := 60 } }

/-- Network for the C2 scenario: "example.com" has two NS hosts, the A
lookup for "ns1.example.com" raises and the one for "ns2.example.com"
succeeds. -/
def envC2 : DnsEnv :=
  { queryNS := fun h =>
      if h == "example.com" then some ["ns1.example.com", "ns2.example.com"] else none,
    queryA := fun h =>
      if h == "ns2.example.com" then some [{ host := "203.0.113.2", ttl := 3600 }] else none,
    queryCname := fun _ => none }

/-- Hash collaborator for the C3 scenario. -/
def md5C3 : String → String := fun _ => "deadbeef"

/-- Network for the C3 scenario: the A answer for the synthetic hostname
"deadbeef.foo.com" lists the same IP twice. -/
def envC3 : DnsEnv :=
  { queryNS := fun _ => none,
    queryA := fun h =>
      if h == "deadbeef.foo.com" then
        some [{ host := "9.9.9.9", ttl := 300 }, { host := "9.9.9.9", ttl := 300 }]
      else none,
    queryCname := fun _ => none }

/-- Public-suffix collaborator for the C4 witness. -/
def pslC4 : String → String := fun _ => "foo.com"

/-- Baseline Record for the C4 witness. -/
def panC4 : Record :=
  { domain := "foo.com", type := QueryType.A, ttl := 300, answer := ["9.9.9.9"] }

/-- Black list for the C4 witness. -/
def blC4 : BlackList := [("foo.com", panC4)]

/-- An A record matching the C4 baseline in answer and ttl. -/
def recC4 : Record :=
  { domain := "x.foo.com", type := QueryType.A, ttl := 300, answer := ["9.9.9.9"] }

/-- An A record matching the C4 baseline in answer but not in ttl. -/
def recC4b : Record :=
  { domain := "x.foo.com", type := QueryType.A, ttl := 299, answer := ["9.9.9.9"] }

/-- Public-suffix collaborator for the C5 witness. -/
def pslC5 : String → String := fun _ => "foo.com"

/-- Baseline Record for the C5 witness. -/
def panC5 : Record :=
  { domain := "foo.com", type := QueryType.A, ttl := 300, answer := ["cn.wild.com"] }

/-- Black list for the C5 witness. -/
def blC5 : BlackList := [("foo.com", panC5)]

/-- Public-suffix collaborator for the C6 witness. -/
def pslC6 : String → String := fun _ => "foo.com"

/-- Baseline Record with an empty answer sequence, for the C6 witness. -/
def panC6 : Record := { domain := "foo.com", type := QueryType.A, ttl := -1, answer := [] }

/-- Black list for the C6 witness. -/
def blC6 : BlackList := [("foo.com", panC6)]

/-- Public-suffix collaborator for the C8 witness: every domain's
registrable root is "example.com". -/
def pslC8 : String → String := fun _ => "example.com"

/-- Network for the C9 failing input where every query, the NS query
included, raises. -/
def envC9 : DnsEnv :=
  { queryNS := fun _ => none, queryA := fun _ => none, queryCname := fun _ => none }

/-- Network for the C9 failing input where the NS query succeeds but
returns zero records. -/
def envC9b : DnsEnv :=
  { queryNS := fun _ => some [], queryA := fun _ => none, queryCname := fun _ => none }

/-! ## Helper lemmas -/

/-- A character's first index is absent exactly when the character does not
occur. -/
theorem charIndex_eq_none_iff (xs : List Char) (c : Char) :
    charIndex xs c = none ↔ c ∉ xs := by
  induction xs with
  | nil => simp [charIndex]
  | cons a as ih =>
    by_cases h : a = c
    · subst h
      simp [charIndex]
    · have h2 : ¬(c = a) := fun hh => h hh.symm
      have hb : (a == c) = false := beq_eq_false_iff_ne.mpr h
      simp [charIndex, hb, h2, ih, Option.map_eq_none']

/-- The first index of a character not occurring in a prefix is the length
of that prefix. -/
theorem charIndex_append (xs ys : List Char) (c : Char) (h : c ∉ xs) :
    charIndex (xs ++ c :: ys) c = some xs.length := by
  induction xs with
  | nil => simp [charIndex]
  | cons a as ih =>
    simp only [List.mem_cons, not_or] at h
    have hb : (a == c) = false := beq_eq_false_iff_ne.mpr (fun hh => h.1 hh.symm)
    simp [charIndex, hb, ih h.2]

/-- Looking up a key just stored finds the stored Record. -/
theorem blLookup_insert_self (bl : BlackList) (k : String) (v : Record) :
    blLookup (blInsert bl k v) k = some v := by
  simp [blLookup, blInsert]

/-! ## Claim theorems -/

/-- C1 (counterexample to the claim as stated): in `envC1` the CNAME query
for "x.foo.com" would succeed, yet `query_a_cname` returns a Record of kind
A and the list of queries it issued for the domain is `[A]`: the A lookup
ran first and its non-empty answer short-circuited the CNAME lookup, so the
CNAME lookup is not attempted before the A lookup and the A query is
issued. -/
theorem queryACname_a_before_cname_cex :
    envC1.queryCname "x.foo.com" = some { cname := "cn.target.com", ttl := 60 } ∧
    queryACname pslC1 md5C1 envC1 [] "x.foo.com" =
      some (some { domain := "x.foo.com", type := QueryType.A, ttl := 300,
                   answer := ["1.2.3.4"] },
            [("foo.com", { domain := "foo.com", type := QueryType.A, ttl := -1, answer := [] })],
            [QueryType.A]) := by
  constructor <;> decide

/-- C1 (amended): within a single domain's resolution the A lookup is
attempted strictly before the CNAME lookup, and a present non-empty A
answer short-circuits the CNAME lookup: whenever the A query succeeds with
a non-empty answer, the lookup loop of `query_a_cname` builds a Record of
kind A listing the returned hosts and the CNAME query is never issued;
only when the A query fails or returns an empty answer is the CNAME query
issued, a successful answer then yielding a Record of kind CNAME whose
answer is the single-element sequence containing the canonical name (ttl
from the answer, or `-1` when the reported ttl is falsy). -/
theorem queryACnameLoop_order (env : DnsEnv) (domain : String) :
    (∀ r0 rs, env.queryA domain = some (r0 :: rs) →
      queryACnameLoop env domain =
        (some { domain := domain, type := QueryType.A, ttl := r0.ttl,
                answer := (r0 :: rs).map (fun r => r.host) }, [QueryType.A])) ∧
    (∀ res, (env.queryA domain = none ∨ env.queryA domain = some []) →
      env.queryCname domain = some res →
      queryACnameLoop env domain =
        (some { domain := domain, type := QueryType.CNAME,
                ttl := if intTruthy res.ttl then res.ttl else -1,
                answer := [res.cname] }, [QueryType.A, QueryType.CNAME])) := by
  constructor
  · intro r0 rs h
    simp [queryACnameLoop, h]
  · intro res hA hc
    cases hA with
    | inl h1 => simp [queryACnameLoop, h1, hc]
    | inr h1 => simp [queryACnameLoop, h1, hc]

/-- C1 (witness): both branches of the amended claim evaluated on concrete
networks. -/
theorem queryACnameLoop_order_witness :
    queryACnameLoop envC1A "x.foo.com" =
      (some { domain := "x.foo.com", type := QueryType.A, ttl := 300, answer := ["1.2.3.4"] },
       [QueryType.A]) ∧
    queryACnameLoop envC1B "x.foo.com" =
      (some { domain := "x.foo.com", type := QueryType.CNAME, ttl := 60,
              answer := ["cn.target.com"] },
       [QueryType.A, QueryType.CNAME]) := by
  constructor
  · exact (queryACnameLoop_order envC1A "x.foo.com").1 { host := "1.2.3.4", ttl := 300 } [] rfl
  · exact (queryACnameLoop_order envC1B "x.foo.com").2 { cname := "cn.target.com", ttl := 60 }
      (Or.inl rfl) rfl

/-- C2 (counterexample to the claim as stated): in `envC2` the NS query for
"example.com" returns two hosts and only "ns1.example.com" fails to
resolve, yet the bootstrap raises instead of continuing with
"ns2.example.com": the single-host failure aborts the batch and no
resolver is produced. -/
theorem queryNs_single_host_failure_cex :
    envC2.queryA "ns2.example.com" = some [{ host := "203.0.113.2", ttl := 3600 }] ∧
    queryNs envC2 "example.com" = NsBootstrap.raised := by
  constructor <;> decide

/-- C2 (amended): during resolver bootstrap a failure of a single NS host's
A-record lookup is not recoverable: the gather of concurrent A lookups
propagates the exception (its default return_exceptions is False), the
bootstrap thread raises before any nameserver set is built, and no
resolver handle is produced; the failing host is not merely excluded. -/
theorem queryNs_single_host_failure_raises (env : DnsEnv) (domain : String)
    (nsRecords : List String)
    (hns : env.queryNS domain = some nsRecords)
    (hne : nsRecords ≠ [])
    (hfail : ∃ x ∈ nsRecords, env.queryA x = none) :
    queryNs env domain = NsBootstrap.raised := by
  have hany : (nsRecords.any fun h => (env.queryA h).isNone) = true := by
    rw [List.any_eq_true]
    obtain ⟨x, hx, hxa⟩ := hfail
    exact ⟨x, hx, by simp [hxa]⟩
  have hemp : nsRecords.isEmpty = false := List.isEmpty_eq_false.mpr hne
  simp [queryNs, hns, hemp, hany]

/-- C2 (witness): the amended claim evaluated on the concrete `envC2`. -/
theorem queryNs_single_host_failure_witness :
    queryNs envC2 "example.com" = NsBootstrap.raised :=
  queryNs_single_host_failure_raises envC2 "example.com"
    ["ns1.example.com", "ns2.example.com"] (by decide) (by decide)
    ⟨"ns1.example.com", by decide, by decide⟩

/-- C3 (evaluation at the failing input): when the A answer for the
synthetic hostname lists the IP "9.9.9.9" twice, `_query_pan_dns` appends
both copies to the baseline answer — the membership test compares a
pycares answer object with the stored strings and never matches — so the
stored baseline holds a duplicate IP string, contradicting the claim that
only IPs not already present are appended. -/
theorem queryPanDns_duplicate_append :
    queryPanDns envC3 md5C3 "foo.com" =
      { domain := "foo.com", type := QueryType.A, ttl := 300,
        answer := ["9.9.9.9", "9.9.9.9"] } ∧
    (queryPanDns envC3 md5C3 "foo.com").answer.count "9.9.9.9" = 2 := by
  constructor <;> decide

/-- C4: for a just-resolved Record of kind A whose answer set is a
non-empty subset of the non-empty baseline answer set for its parent
domain, `_is_pan_dns` returns true exactly when the record's ttl equals the
baseline's ttl — in particular false whenever the ttl differs. -/
theorem isPanDns_A_subset (psl : String → String) (bl : BlackList)
    (record pan : Record) (parent : String)
    (hp : parentDomain psl record.domain = some parent)
    (hb : blLookup bl parent = some pan)
    (htype : record.type = QueryType.A)
    (hrne : record.answer ≠ [])
    (hpne : pan.answer ≠ [])
    (hsub : ∀ a ∈ record.answer, a ∈ pan.answer) :
    isPanDns psl bl record = some (record.ttl == pan.ttl) := by
  have hall : (record.answer.all (fun answer => pan.answer.contains answer)) = true := by
    rw [List.all_eq_true]
    intro x hx
    simpa [List.contains] using hsub x hx
  have hemp : pan.answer.isEmpty = false := List.isEmpty_eq_false.mpr hpne
  cases hT : record.ttl == pan.ttl
  case false => simp [isPanDns, hp, hb, hemp, htype, hall, hT]
  case true =>
    simp [isPanDns, hp, hb, hemp, htype, hall, hT]
    exact hsub

/-- C4 (witness): an A record whose answer is contained in the baseline is
a wildcard when the ttls agree (300 = 300) and not a wildcard when they
differ (299 vs 300). -/
theorem isPanDns_A_subset_witness :
    isPanDns pslC4 blC4 recC4 = some true ∧ isPanDns pslC4 blC4 recC4b = some false := by
  constructor
  · have h := isPanDns_A_subset pslC4 blC4 recC4 panC4 "foo.com" (by decide) (by decide)
      rfl (by decide) (by decide) (by decide)
    simpa using h
  · have h := isPanDns_A_subset pslC4 blC4 recC4b panC4 "foo.com" (by decide) (by decide)
      rfl (by decide) (by decide) (by decide)
    simpa using h

/-- C5: for a just-resolved Record of kind CNAME whose single answer entry
belongs to the non-empty baseline answer set for its parent domain,
`_is_pan_dns` returns true whatever the record's ttl and the baseline's
ttl are: the ttl is not consulted on the CNAME path. -/
theorem isPanDns_cname_member (psl : String → String) (bl : BlackList)
    (d c : String) (ttl : Int) (pan : Record) (parent : String)
    (hp : parentDomain psl d = some parent)
    (hb : blLookup bl parent = some pan)
    (hpne : pan.answer ≠ [])
    (hmem : c ∈ pan.answer) :
    isPanDns psl bl { domain := d, type := QueryType.CNAME, ttl := ttl, answer := [c] } =
      some true := by
  have hemp : pan.answer.isEmpty = false := List.isEmpty_eq_false.mpr hpne
  simp [isPanDns, hp, hb, hemp, List.contains, hmem]

/-- C5 (witness): a CNAME record whose answer is the baseline entry is a
wildcard although its ttl 12345 differs from the baseline ttl 300. -/
theorem isPanDns_cname_member_witness :
    isPanDns pslC5 blC5
      { domain := "x.foo.com", type := QueryType.CNAME, ttl := 12345, answer := ["cn.wild.com"] } =
      some true :=
  isPanDns_cname_member pslC5 blC5 "x.foo.com" "cn.wild.com" 12345 panC5 "foo.com"
    (by decide) (by decide) (by decide) (by decide)

/-- C6: for every record of any kind, when the cached baseline Record for
the record's parent domain has an empty answer sequence, `_is_pan_dns`
returns false. -/
theorem isPanDns_empty_baseline (psl : String → String) (bl : BlackList)
    (record : Record) (parent : String) (pan : Record)
    (hp : parentDomain psl record.domain = some parent)
    (hb : blLookup bl parent = some pan)
    (hempty : pan.answer = []) :
    isPanDns psl bl record = some false := by
  simp [isPanDns, hp, hb, hempty]

/-- C6 (witness): with an empty baseline for "foo.com", an A record for
"x.foo.com" is not classified as a wildcard. -/
theorem isPanDns_empty_baseline_witness :
    isPanDns pslC6 blC6
      { domain := "x.foo.com", type := QueryType.A, ttl := 300, answer := ["9.9.9.9"] } =
      some false :=
  isPanDns_empty_baseline pslC6 blC6
    { domain := "x.foo.com", type := QueryType.A, ttl := 300, answer := ["9.9.9.9"] }
    "foo.com" panC6 (by decide) (by decide) rfl

/-- C7: baseline population is at-most-once per parent domain: after one
`ensure_baseline` step a Record for the parent is stored in the cache —
whatever the query outcomes were, including an empty answer — and running
`ensure_baseline` again on the resulting cache is a no-op that issues zero
further baseline queries. -/
theorem ensureBaseline_at_most_once (env : DnsEnv) (md5hex : String → String)
    (bl : BlackList) (parent : String) :
    (blLookup (ensureBaseline env md5hex bl parent).fst parent).isSome = true ∧
    ensureBaseline env md5hex (ensureBaseline env md5hex bl parent).fst parent =
      ((ensureBaseline env md5hex bl parent).fst, 0) := by
  by_cases h : (blLookup bl parent).isSome
  · constructor <;> simp [ensureBaseline, h]
  · have h0 : (blLookup bl parent).isSome = false := by simpa using h
    constructor
    · simp [ensureBaseline, h0, blLookup_insert_self]
    · simp [ensureBaseline, h0, blLookup_insert_self]

/-- C8: `_parent_domain` maps a root domain (per the public-suffix test) to
itself, and strips the leftmost label of any non-root domain of the shape
`l ++ "." ++ rest` whose first label `l` holds no dot. -/
theorem parentDomain_root_and_strip (psl : String → String) (d l rest : String)
    (hroot : isRootDomain psl d = true)
    (hnotroot : isRootDomain psl (l ++ "." ++ rest) = false)
    (hdot : '.' ∉ l.toList) :
    parentDomain psl d = some d ∧ parentDomain psl (l ++ "." ++ rest) = some rest := by
  constructor
  · simp [parentDomain, hroot]
  · have hlist : (l ++ "." ++ rest).toList = l.toList ++ '.' :: rest.toList := by
      simp [String.toList]
    unfold parentDomain
    simp only [hnotroot, Bool.false_eq_true, if_false, hlist,
      charIndex_append l.toList rest.toList '.' hdot]
    unfold strDrop
    rw [hlist]
    have hsplit : l.toList ++ '.' :: rest.toList = (l.toList ++ ['.']) ++ rest.toList := by
      simp
    have hlen : l.toList.length + 1 = (l.toList ++ ['.']).length := by simp
    rw [hsplit, hlen, List.drop_left]
    rfl

/-- C8 (witness): with registrable root "example.com", the parent of
"example.com" is itself and the parent of "a.b.example.com" is
"b.example.com". -/
theorem parentDomain_root_and_strip_witness :
    parentDomain pslC8 "example.com" = some "example.com" ∧
    parentDomain pslC8 "a.b.example.com" = some "b.example.com" :=
  parentDomain_root_and_strip pslC8 "example.com" "a" "b.example.com"
    (by decide) (by decide) (by decide)

/-- C9 (evaluation at the failing inputs): when the NS query for the root
domain raises (`envC9`) or returns zero records (`envC9b`), `_query_ns`
logs the domain, the empty partial NS results and whether an error was
caught, and then calls `exit(1)` — but it only ever runs on the worker
thread spawned in `query_loop`, where the SystemExit is silently swallowed,
so the process does not terminate with a non-zero exit status as the claim
states: the bootstrap thread just dies, `thread.join()` returns, and the
run continues with no resolver handle ever produced. -/
theorem queryNs_exit_swallowed_in_thread :
    queryNs envC9 "example.com" = NsBootstrap.sysExitInThread 1 "example.com" [] true ∧
    queryNs envC9b "example.com" = NsBootstrap.sysExitInThread 1 "example.com" [] false := by
  constructor <;> decide

/-- C10: `_parent_domain` fails (the ValueError of `str.index`) exactly on
the inputs that are not root domains and hold no "." character; on every
other input it returns a string. -/
theorem parentDomain_raises_iff_no_dot (psl : String → String) (d : String) :
    parentDomain psl d = none ↔ (isRootDomain psl d = false ∧ '.' ∉ d.toList) := by
  by_cases h : isRootDomain psl d
  · simp [parentDomain, h]
  · have h0 : isRootDomain psl d = false := by simpa using h
    cases hc : charIndex d.toList '.' with
    | none =>
      have hm : '.' ∉ d.toList := (charIndex_eq_none_iff _ _).mp hc
      have hc2 : charIndex d.data '.' = none := hc
      have hm2 : '.' ∉ d.data := hm
      simp [parentDomain, h0, hc2, hm2]
    | some i =>
      have hm : '.' ∈ d.toList := by
        by_contra hnot
        rw [(charIndex_eq_none_iff d.toList '.').mpr hnot] at hc
        exact Option.noConfusion hc
      have hc2 : charIndex d.data '.' = some i := hc
      have hm2 : '.' ∈ d.data := hm
      simp [parentDomain, h0, hc2, hm2]

end DnsBrute
